import Mathlib

/-!
Verification of the budget usage and alert-evaluation engine of the
Budget-Buddy repository (src/routes/budgets.js, src/models/Budget.js,
src/models/Expense.js), shallowly embedded in Lean 4.

Conventions of the embedding:
* JavaScript numbers are modelled as rationals; the one place where the
  IEEE special values matter (division by a zero budget amount) is modelled
  exactly by the type JsNum below (finite / +Infinity / -Infinity / NaN).
* MongoDB collections are lists in natural (insertion) order; find with a
  filter is List.filter (order preserving), findOne is List.find?, and an
  explicit .sort({category:1}) clause would be a sort by category -- the
  alerts route issues no such clause.
* Timestamps are minutes since the Unix epoch (Int).  The JavaScript Date
  constructor new Date(y, m, 1) and the accessors getFullYear/getMonth work
  in the server's LOCAL calendar; the embedding makes the local offset an
  explicit parameter o (local time = UTC time + o minutes).
-/

set_option maxRecDepth 2048

set_option allowUnsafeReducibility true in
attribute [semireducible] Rat.mul Rat.add Rat.sub Rat.inv

namespace BudgetBuddy

/-- The fixed category enumeration shared by Budget.js and Expense.js. -/
inductive Category where
  | foodDining
  | transportation
  | shopping
  | entertainment
  | healthcare
  | education
  | housing
  | utilities
  | insurance
  | travel
  | personalCare
  | gifts
  | subscriptions
  | other
deriving DecidableEq, Repr

/-- Rank of a category in ascending order of its display string
("Education" < "Entertainment" < "Food & Dining" < "Gifts" < "Healthcare"
< "Housing" < "Insurance" < "Other" < "Personal Care" < "Shopping"
< "Subscriptions" < "Transportation" < "Travel" < "Utilities"), the order
MongoDB uses for .sort on the category field. -/
def Category.rank : Category → Nat
  | .education => 0
  | .entertainment => 1
  | .foodDining => 2
  | .gifts => 3
  | .healthcare => 4
  | .housing => 5
  | .insurance => 6
  | .other => 7
  | .personalCare => 8
  | .shopping => 9
  | .subscriptions => 10
  | .transportation => 11
  | .travel => 12
  | .utilities => 13

/-- Budget period enumeration from Budget.js. -/
inductive Period where
  | weekly
  | monthly
  | yearly
deriving DecidableEq, Repr

/-- The notifications sub-document of a budget (Budget.js). -/
structure Notifs where
  enabled : Bool
  email : Bool
  push : Bool
deriving DecidableEq, Repr

/-- A budget document (Budget.js schema, domain fields). -/
structure Budget where
  id : Nat
  user : Nat
  category : Category
  amount : ℚ
  period : Period
  startDate : Int
  endDate : Option Int
  isActive : Bool
  alertThreshold : ℚ
  notifs : Notifs
deriving DecidableEq, Repr

/-- An expense document (Expense.js schema, projected to the fields the
budget engine reads: owner, category, amount, date). -/
structure Expense where
  user : Nat
  category : Category
  amount : ℚ
  date : Int
deriving DecidableEq, Repr

/-- Errors surfaced by the budget routes (404 not found, 400 duplicate
category, 400 validation). -/
inductive ApiError where
  | notFound
  | duplicateBudget
  | validation
deriving DecidableEq, Repr

/-- A JavaScript number as far as the engine can observe it: a finite
rational, +Infinity, -Infinity, or NaN. -/
inductive JsNum where
  | num : ℚ → JsNum
  | posInf : JsNum
  | negInf : JsNum
  | nan : JsNum
deriving DecidableEq, Repr

/-- JavaScript division of finite numbers: division never throws; a zero
divisor yields NaN (0/0) or a signed infinity. -/
def jsDiv (a b : ℚ) : JsNum :=
  if b = 0 then
    if a = 0 then .nan else if 0 < a then .posInf else .negInf
  else .num (a / b)

/-- Multiplication of a JavaScript number by the finite positive constant
100 (the `* 100` in the usage computation). -/
def jsMul100 : JsNum → JsNum
  | .num q => .num (q * 100)
  | .posInf => .posInf
  | .negInf => .negInf
  | .nan => .nan

/-- JavaScript Math.round on a finite value: the floor of x + 1/2
(Rat.floor, the executable floor on rationals). -/
def jsRound (q : ℚ) : Int := (q + 1 / 2).floor

/-- The two-decimal rounding idiom Math.round(x * 100) / 100 on a finite
value. -/
def round2 (q : ℚ) : ℚ := (jsRound (q * 100) : ℚ) / 100

/-- The two-decimal rounding idiom on a JavaScript number:
Math.round maps each infinity to itself and NaN to NaN, and dividing those
by 100 changes nothing. -/
def jsRound2 : JsNum → JsNum
  | .num q => .num (round2 q)
  | .posInf => .posInf
  | .negInf => .negInf
  | .nan => .nan

/-- The JavaScript comparison x >= t for a finite t: false whenever x is
NaN, true for +Infinity, false for -Infinity. -/
def jsGe (x : JsNum) (t : ℚ) : Bool :=
  match x with
  | .num q => decide (t ≤ q)
  | .posInf => true
  | .negInf => false
  | .nan => false

/-- Round half up (half away from zero) to two decimals, as the spec words
"rounded to 2 decimal places using round-half-up" prescribe.  Used only to
compare against the code's rounding. -/
def roundHalfUp2 (q : ℚ) : ℚ :=
  if 0 ≤ q then ((q * 100 + 1 / 2).floor : ℚ) / 100
  else -(((-(q * 100) + 1 / 2).floor : ℚ) / 100)

/-- Days since 1970-01-01 of the civil date y-m-d (proleptic Gregorian,
m in 1..12). -/
def daysFromCivil (y m d : Int) : Int :=
  let y2 : Int := if m ≤ 2 then y - 1 else y
  let era : Int := y2.fdiv 400
  let yoe : Int := y2 - era * 400
  let mp : Int := if 2 < m then m - 3 else m + 9
  let doy : Int := (153 * mp + 2).fdiv 5 + d - 1
  let doe : Int := yoe * 365 + yoe.fdiv 4 - yoe.fdiv 100 + doy
  era * 146097 + doe - 719468

/-- Civil date (year, month, day) of a count of days since 1970-01-01. -/
def civilFromDays (z0 : Int) : Int × Int × Int :=
  let z : Int := z0 + 719468
  let era : Int := z.fdiv 146097
  let doe : Int := z - era * 146097
  let yoe : Int := (doe - doe.fdiv 1460 + doe.fdiv 36524 - doe.fdiv 146096).fdiv 365
  let y : Int := yoe + era * 400
  let doy : Int := doe - (365 * yoe + yoe.fdiv 4 - yoe.fdiv 100)
  let mp : Int := (5 * doy + 2).fdiv 153
  let d : Int := doy - (153 * mp + 2).fdiv 5 + 1
  let m : Int := if mp < 10 then mp + 3 else mp - 9
  (if m ≤ 2 then y + 1 else y, m, d)

/-- Minutes since the epoch of the civil instant y-m-d hh:mm. -/
def minutesFromCivil (y m d hh mm : Int) : Int :=
  daysFromCivil y m d * 1440 + hh * 60 + mm

/-- The month window the routes compute, lines 150-154 / 276-277 of
budgets.js:  new Date(new Date().getFullYear(), new Date().getMonth(), 1)
up to (exclusive) the same with month + 1.  getFullYear, getMonth and the
component Date constructor all use the server's local calendar, i.e. the
instant t shifted by the local offset o (minutes); the constructed local
midnight corresponds to the absolute instant minus o.  A component month
of 12 (JavaScript index 11 + 1) rolls over to January of the next year. -/
def monthWindow (t o : Int) : Int × Int :=
  let c := civilFromDays ((t + o).fdiv 1440)
  let y := c.1
  let m := c.2.1
  let s := minutesFromCivil y m 1 0 0 - o
  let e := (if m = 12 then minutesFromCivil (y + 1) 1 1 0 0 else minutesFromCivil y (m + 1) 1 0 0) - o
  (s, e)

/-- The monthly period window as the spec words it: first day of the
reference month 00:00 to first day of the next month 00:00, on UTC
calendar boundaries, as a pure function of the reference instant.
Written from the spec (section 4.1) for comparison with monthWindow. -/
def specMonthlyWindow (t : Int) : Int × Int :=
  let c := civilFromDays (t.fdiv 1440)
  let y := c.1
  let m := c.2.1
  let s := minutesFromCivil y m 1 0 0
  let e := if m = 12 then minutesFromCivil (y + 1) 1 1 0 0 else minutesFromCivil y (m + 1) 1 0 0
  (s, e)

/-- The Expense.aggregate $match + $group $sum pipeline: sum of the amounts
of the expenses of the user in the category whose date lies in the
half-open window [s, e); 0 when nothing matches (the [0]?.total || 0
idiom). -/
def sumAmount (ledger : List Expense) (uid : Nat) (cat : Category) (s e : Int) : ℚ :=
  ((ledger.filter fun x =>
    x.user == uid && decide (x.category = cat) && decide (s ≤ x.date) && decide (x.date < e)).map
    (fun x => x.amount)).sum

/-- Total spent by the user in the budget category over the current month
window: the ledger sum over monthWindow. -/
def spentOf (ledger : List Expense) (uid : Nat) (cat : Category) (t o : Int) : ℚ :=
  sumAmount ledger uid cat (monthWindow t o).1 (monthWindow t o).2

/-- The usage block of GET /api/budgets/:id (lines 166-185 of budgets.js);
usagePercentage is rounded for display while isOverBudget and
alertTriggered are computed from the raw values. -/
structure Usage where
  totalSpent : ℚ
  usagePercentage : JsNum
  remainingBudget : ℚ
  isOverBudget : Bool
  alertTriggered : Bool
deriving DecidableEq, Repr

/-- The raw (pre-rounding) usage percentage (totalSpent / budget.amount)
* 100 as a JavaScript number. -/
def rawPct (b : Budget) (total : ℚ) : JsNum := jsMul100 (jsDiv total b.amount)

/-- Lines 166-185 of budgets.js: the usage object computed for a budget
from its month-window total. -/
def computeUsage (b : Budget) (total : ℚ) : Usage :=
  { totalSpent := total
    usagePercentage := jsRound2 (rawPct b total)
    remainingBudget := round2 (max 0 (b.amount - total))
    isOverBudget := decide (b.amount < total)
    alertTriggered := jsGe (rawPct b total) b.alertThreshold }

/-- Budget.findOne({_id: id, user: uid}). -/
def findBudget (store : List Budget) (uid bid : Nat) : Option Budget :=
  store.find? fun x => x.id == bid && x.user == uid

/-- GET /api/budgets/:id (lines 133-192 of budgets.js): 404 when no budget
with the id is owned by the caller (the active flag is NOT part of the
query), otherwise the usage computed over the current month window. -/
def getUsage (store : List Budget) (ledger : List Expense) (uid bid : Nat) (t o : Int) :
    Except ApiError Usage :=
  match findBudget store uid bid with
  | none => .error .notFound
  | some b => .ok (computeUsage b (spentOf ledger uid b.category t o))

/-- Alert severity. -/
inductive Severity where
  | critical
  | warning
deriving DecidableEq, Repr

/-- An alert record pushed by GET /api/budgets/alerts/check (lines 293-302
of budgets.js).  usagePercentage is the rounded display value; threshold
and severity come from the raw comparison.  The human-readable message
string is display-only and omitted. -/
structure Alert where
  budgetId : Nat
  category : Category
  budgetAmount : ℚ
  totalSpent : ℚ
  usagePercentage : JsNum
  threshold : ℚ
  severity : Severity
deriving DecidableEq, Repr

/-- Budget.find({user: uid, isActive: true, notifications.enabled: true})
of line 261: a filter with NO sort clause, so the store (insertion) order
is preserved. -/
def registryActiveEnabled (store : List Budget) (uid : Nat) : List Budget :=
  store.filter fun b => b.user == uid && b.isActive && b.notifs.enabled

/-- The alert record pushed for a triggered budget (lines 293-302). -/
def mkAlert (b : Budget) (total : ℚ) : Alert :=
  { budgetId := b.id
    category := b.category
    budgetAmount := b.amount
    totalSpent := total
    usagePercentage := jsRound2 (rawPct b total)
    threshold := b.alertThreshold
    severity := if jsGe (rawPct b total) 100 then .critical else .warning }

/-- The body of the alert loop (lines 289-303): push an alert exactly when
the raw usage percentage is at least the threshold. -/
def alertOf (b : Budget) (total : ℚ) : Option Alert :=
  if jsGe (rawPct b total) b.alertThreshold then some (mkAlert b total) else none

/-- GET /api/budgets/alerts/check (lines 259-306 of budgets.js): iterate
the active notification-enabled budgets of the user in store order and
collect the alerts of the triggered ones. -/
def checkAlerts (store : List Budget) (ledger : List Expense) (uid : Nat) (t o : Int) :
    List Alert :=
  (registryActiveEnabled store uid).filterMap fun b =>
    alertOf b (spentOf ledger uid b.category t o)

/-- A budget-creation request body (POST /api/budgets).  Absent optional
fields take the defaults of lines 34-37 and 60-64 and of the schema. -/
structure CreateReq where
  category : Category
  amount : ℚ
  period : Option Period
  startDate : Option Int
  endDate : Option Int
  alertThreshold : Option ℚ
  notifs : Option Notifs
deriving DecidableEq, Repr

/-- The express-validator checks of POST /api/budgets (lines 15-23):
amount is a number at least 0.01, the optional alert threshold lies in
[0, 100]; category and period are enumerations, enforced here by type. -/
def validCreate (r : CreateReq) : Bool :=
  decide ((1 : ℚ) / 100 ≤ r.amount) &&
    (match r.alertThreshold with
     | some th => decide (0 ≤ th) && decide (th ≤ 100)
     | none => true)

/-- POST /api/budgets (lines 15-72 of budgets.js): reject invalid input;
reject with the duplicate error when an active budget of the same user and
category exists; otherwise append the new budget (isActive defaults to
true in the schema).  Returns the route result and the resulting store. -/
def createBudget (store : List Budget) (uid : Nat) (r : CreateReq) (now : Int) (newId : Nat) :
    Except ApiError Budget × List Budget :=
  if ¬ validCreate r then (.error .validation, store)
  else if (store.find? fun b =>
      b.user == uid && decide (b.category = r.category) && b.isActive).isSome then
    (.error .duplicateBudget, store)
  else
    let b : Budget :=
      { id := newId
        user := uid
        category := r.category
        amount := r.amount
        period := r.period.getD .monthly
        startDate := r.startDate.getD now
        endDate := r.endDate
        isActive := true
        alertThreshold := r.alertThreshold.getD 80
        notifs := r.notifs.getD { enabled := true, email := false, push := true } }
    (.ok b, store ++ [b])

/-- A budget-update request body (PUT /api/budgets/:id).  Object.assign
copies every field present in the body onto the document, category and
isActive included; each field of this structure models a key that may or
may not be present. -/
structure UpdateReq where
  category : Option Category
  amount : Option ℚ
  period : Option Period
  alertThreshold : Option ℚ
  isActive : Option Bool
deriving DecidableEq, Repr

/-- The express-validator checks of PUT /api/budgets/:id (lines 202-205):
optional amount at least 0.01, optional threshold in [0, 100].  No check
at all on category or isActive. -/
def validUpdate (r : UpdateReq) : Bool :=
  (match r.amount with
   | some a => decide ((1 : ℚ) / 100 ≤ a)
   | none => true) &&
    (match r.alertThreshold with
     | some th => decide (0 ≤ th) && decide (th ≤ 100)
     | none => true)

/-- Object.assign(budget, req.body) of line 222. -/
def applyUpdate (b : Budget) (r : UpdateReq) : Budget :=
  { b with
    category := r.category.getD b.category
    amount := r.amount.getD b.amount
    period := r.period.getD b.period
    alertThreshold := r.alertThreshold.getD b.alertThreshold
    isActive := r.isActive.getD b.isActive }

/-- PUT /api/budgets/:id (lines 202-230 of budgets.js): validate, find the
budget by id and owner (404 when absent), overwrite the provided fields
and save.  No duplicate-category check is performed.  Ids are unique in
the store, so saving the document is replacing the entry with its id. -/
def updateBudget (store : List Budget) (uid bid : Nat) (r : UpdateReq) :
    Except ApiError Budget × List Budget :=
  if ¬ validUpdate r then (.error .validation, store)
  else
    match findBudget store uid bid with
    | none => (.error .notFound, store)
    | some b =>
      (.ok (applyUpdate b r), store.map fun x => if x.id == b.id then applyUpdate x r else x)

/-- DELETE /api/budgets/:id (lines 235-254 of budgets.js): find the budget
by id and owner (404 when absent), set isActive to false and save; the
document is never removed. -/
def deleteBudget (store : List Budget) (uid bid : Nat) :
    Except ApiError Unit × List Budget :=
  match findBudget store uid bid with
  | none => (.error .notFound, store)
  | some b =>
    (.ok (), store.map fun x => if x.id == b.id then { x with isActive := false } else x)

/-- Two budgets clash when both are active for the same user and
category. -/
def activeClash (a b : Budget) : Bool :=
  a.isActive && b.isActive && a.user == b.user && decide (a.category = b.category)

/-- The unique-active-per-(user, category) store invariant, as a decidable
check: no two distinct entries clash. -/
def noActiveDup : List Budget → Bool
  | [] => true
  | b :: rest => (rest.all fun x => ! activeClash b x) && noActiveDup rest

/-! Concrete fixtures used by the counterexamples and witnesses below. -/

/-- A concrete evaluation instant: 2024-05-15 12:00 UTC. -/
def sampleNow : Int := minutesFromCivil 2024 5 15 12 0

/-- A concrete expense date inside the month of sampleNow. -/
def sampleDate : Int := minutesFromCivil 2024 5 10 9 0

/-- The schema-default notifications sub-document. -/
def baseNotifs : Notifs := { enabled := true, email := false, push := true }

/-- A budget with a zero limit amount (the Budget schema allows min 0). -/
def zeroLimitBudget : Budget :=
  { id := 1, user := 1, category := .foodDining, amount := 0, period := .monthly,
    startDate := 0, endDate := none, isActive := true, alertThreshold := 80,
    notifs := baseNotifs }

/-- An expense of 5 against the zero-limit budget's category. -/
def zeroLimitExpense : Expense :=
  { user := 1, category := .foodDining, amount := 5, date := sampleDate }

/-- A budget of 100000 with the default threshold 80. -/
def nearBudget : Budget :=
  { id := 3, user := 1, category := .foodDining, amount := 100000, period := .monthly,
    startDate := 0, endDate := none, isActive := true, alertThreshold := 80,
    notifs := baseNotifs }

/-- An expense of 79999: usage 79.999 percent, which rounds to 80.00. -/
def nearExpense : Expense :=
  { user := 1, category := .foodDining, amount := 79999, date := sampleDate }

/-- A budget of 100000 with threshold 50. -/
def nearCriticalBudget : Budget := { nearBudget with id := 4, alertThreshold := 50 }

/-- An expense of 99999: usage 99.999 percent, which rounds to 100.00. -/
def nearCriticalExpense : Expense := { nearExpense with amount := 99999 }

/-- An active Transportation budget with threshold 0. -/
def transportBudget : Budget :=
  { id := 11, user := 1, category := .transportation, amount := 10, period := .monthly,
    startDate := 0, endDate := none, isActive := true, alertThreshold := 0,
    notifs := baseNotifs }

/-- An active Food and Dining budget with threshold 0. -/
def foodBudget : Budget := { transportBudget with id := 12, category := .foodDining }

/-- A store holding the Transportation budget before the Food and Dining
budget (their creation order), which is NOT ascending category order. -/
def pairStore : List Budget := [transportBudget, foodBudget]

/-- An update request that only changes the category to Transportation. -/
def recatReq : UpdateReq :=
  { category := some .transportation, amount := none, period := none,
    alertThreshold := none, isActive := none }

/-- A creation request for a second Transportation budget. -/
def dupCreateReq : CreateReq :=
  { category := .transportation, amount := 50, period := none, startDate := none,
    endDate := none, alertThreshold := none, notifs := none }

/-- An inactive (soft-deleted) budget. -/
def inactiveBudget : Budget := { transportBudget with id := 21, isActive := false }

/-- An instant just before a UTC month boundary: 2024-01-31 23:30 UTC.
In a UTC+60-minutes local calendar this instant already lies in
February. -/
def boundaryInstant : Int := minutesFromCivil 2024 1 31 23 30

/-- The alert emitted for nearCriticalBudget after spending 99999. -/
def sampleAlert : Alert := mkAlert nearCriticalBudget 99999

/-- Whether a sequence of category ranks is ascending (the order the
ordering claim asserts for checkAlerts output). -/
def ranksAscending : List Nat → Bool
  | [] => true
  | [_] => true
  | a :: b :: rest => decide (a ≤ b) && ranksAscending (b :: rest)

/-! Helper lemmas (shared; none of them is a claim theorem). -/

theorem list_filterMap_eq_filter_map {α β : Type} (p : α → Bool) (f : α → β) (l : List α) :
    (l.filterMap fun x => if p x then some (f x) else none) = (l.filter p).map f := by
  induction l with
  | nil => rfl
  | cons a l ih => cases h : p a <;> simp [List.filterMap_cons, List.filter_cons, h, ih]

theorem checkAlerts_eq (store : List Budget) (ledger : List Expense) (uid : Nat) (t o : Int) :
    checkAlerts store ledger uid t o =
      ((registryActiveEnabled store uid).filter fun b =>
        (computeUsage b (spentOf ledger uid b.category t o)).alertTriggered).map fun b =>
        mkAlert b (spentOf ledger uid b.category t o) := by
  unfold checkAlerts alertOf
  rw [list_filterMap_eq_filter_map]
  rfl

theorem noActiveDup_cons (a : Budget) (l : List Budget) :
    noActiveDup (a :: l) = true ↔
      ((∀ x ∈ l, activeClash a x = false) ∧ noActiveDup l = true) := by
  show ((l.all fun x => !activeClash a x) && noActiveDup l) = true ↔ _
  simp [List.all_eq_true, Bool.not_eq_true']

theorem noActiveDup_append (l : List Budget) (b : Budget) :
    noActiveDup (l ++ [b]) = true ↔
      (noActiveDup l = true ∧ ∀ x ∈ l, activeClash x b = false) := by
  induction l with
  | nil => simp [noActiveDup]
  | cons a l ih =>
    rw [List.cons_append, noActiveDup_cons, noActiveDup_cons, ih]
    constructor
    · rintro ⟨h1, h2, h3⟩
      refine ⟨⟨fun x hx => h1 x (List.mem_append_left _ hx), h2⟩, fun x hx => ?_⟩
      rcases List.mem_cons.mp hx with rfl | hx
      · exact h1 b (List.mem_append_right _ (List.mem_singleton_self b))
      · exact h3 x hx
    · rintro ⟨⟨h1, h2⟩, h3⟩
      refine ⟨fun x hx => ?_, h2, fun x hx => h3 x (List.mem_cons_of_mem a hx)⟩
      rcases List.mem_append.mp hx with hx | hx
      · exact h1 x hx
      · rw [List.mem_singleton.mp hx]
        exact h3 a (List.mem_cons_self a l)

theorem activeClash_map (f : Budget → Budget)
    (hu : ∀ x, (f x).user = x.user) (hc : ∀ x, (f x).category = x.category)
    (ha : ∀ x, (f x).isActive = true → x.isActive = true)
    (a x : Budget) (h : activeClash (f a) (f x) = true) : activeClash a x = true := by
  unfold activeClash at *
  simp only [Bool.and_eq_true, beq_iff_eq, decide_eq_true_eq] at *
  obtain ⟨⟨⟨h1, h2⟩, h3⟩, h4⟩ := h
  refine ⟨⟨⟨ha a h1, ha x h2⟩, ?_⟩, ?_⟩
  · rw [← hu a, ← hu x]; exact h3
  · rw [← hc a, ← hc x]; exact h4

theorem noActiveDup_map (f : Budget → Budget)
    (hu : ∀ x, (f x).user = x.user) (hc : ∀ x, (f x).category = x.category)
    (ha : ∀ x, (f x).isActive = true → x.isActive = true)
    (l : List Budget) : noActiveDup l = true → noActiveDup (l.map f) = true := by
  induction l with
  | nil => intro _; rfl
  | cons a l ih =>
    intro hl
    rcases (noActiveDup_cons a l).mp hl with ⟨h1, h2⟩
    rw [List.map_cons]
    refine (noActiveDup_cons (f a) (l.map f)).mpr ⟨?_, ih h2⟩
    intro y hy
    rcases List.mem_map.mp hy with ⟨x, hx, rfl⟩
    cases hcl : activeClash (f a) (f x) with
    | false => rfl
    | true =>
      have h3 := activeClash_map f hu hc ha a x hcl
      rw [h1 x hx] at h3
      exact absurd h3 Bool.false_ne_true

theorem zip_map_self {α : Type} (f : α → α) (l : List α) :
    (l.map f).zip l = l.map fun x => (f x, x) := by
  induction l with
  | nil => rfl
  | cons a l ih => simp [ih]

/-! Claim theorems. -/

/-- Claim C1, counterexample: on a budget with limitAmount 0, getUsage
returns a snapshot without error, but its usagePercentage is +Infinity
when totalSpent is positive and NaN when totalSpent is 0 — not 100 and
not 0 as the claim states. -/
theorem C1_counterexample :
    (getUsage [zeroLimitBudget] [zeroLimitExpense] 1 1 sampleNow 0).toOption.map
        (fun u => u.usagePercentage) = some JsNum.posInf ∧
    (getUsage [zeroLimitBudget] [] 1 1 sampleNow 0).toOption.map
        (fun u => u.usagePercentage) = some JsNum.nan ∧
    JsNum.posInf ≠ JsNum.num 100 ∧ JsNum.nan ≠ JsNum.num 0 := by
  decide

/-- Claim C1, amended: for every budget with limitAmount = 0 found for the
caller, getUsage raises no divide-by-zero error (it returns a snapshot),
but the snapshot's usagePercentage is NaN when totalSpent = 0, +Infinity
when totalSpent > 0 and -Infinity when totalSpent < 0 (JavaScript division
semantics) — the 100 / 0 guard of the spec is not implemented. -/
theorem C1_amended (store : List Budget) (ledger : List Expense) (uid bid : Nat) (t o : Int)
    (b : Budget) (hfind : findBudget store uid bid = some b) (hz : b.amount = 0) :
    getUsage store ledger uid bid t o =
      Except.ok (computeUsage b (spentOf ledger uid b.category t o)) ∧
    (computeUsage b (spentOf ledger uid b.category t o)).usagePercentage =
      (if spentOf ledger uid b.category t o = 0 then JsNum.nan
       else if 0 < spentOf ledger uid b.category t o then JsNum.posInf
       else JsNum.negInf) := by
  constructor
  · unfold getUsage
    rw [hfind]
  · show jsRound2 (jsMul100 (jsDiv (spentOf ledger uid b.category t o) b.amount)) = _
    rw [hz]
    unfold jsDiv
    rw [if_pos rfl]
    by_cases h0 : spentOf ledger uid b.category t o = 0
    · rw [if_pos h0]
      rfl
    · rw [if_neg h0]
      by_cases hp : 0 < spentOf ledger uid b.category t o
      · rw [if_pos hp]
        rfl
      · rw [if_neg hp]
        rfl

/-- Claim C1, witness for the amended theorem at a concrete input. -/
theorem C1_witness :
    getUsage [zeroLimitBudget] [zeroLimitExpense] 1 1 sampleNow 0 =
      Except.ok (computeUsage zeroLimitBudget
        (spentOf [zeroLimitExpense] 1 zeroLimitBudget.category sampleNow 0)) ∧
    (computeUsage zeroLimitBudget
        (spentOf [zeroLimitExpense] 1 zeroLimitBudget.category sampleNow 0)).usagePercentage =
      (if spentOf [zeroLimitExpense] 1 zeroLimitBudget.category sampleNow 0 = 0 then JsNum.nan
       else if 0 < spentOf [zeroLimitExpense] 1 zeroLimitBudget.category sampleNow 0 then
         JsNum.posInf
       else JsNum.negInf) :=
  C1_amended [zeroLimitBudget] [zeroLimitExpense] 1 1 sampleNow 0 zeroLimitBudget
    (by decide) rfl

/-- Claim C2, counterexample: a store whose creation order is
Transportation before Food and Dining (both active, notification-enabled,
threshold 0, hence both triggered) yields checkAlerts output in store
order [Transportation, Food and Dining] — category ranks [11, 2] — which
is NOT ascending category order: the alerts route issues no sort
clause. -/
theorem C2_counterexample :
    (checkAlerts pairStore [] 1 sampleNow 0).map (fun a => a.category.rank) = [11, 2] ∧
    ranksAscending ((checkAlerts pairStore [] 1 sampleNow 0).map fun a => a.category.rank) =
      false := by
  decide

/-- Claim C2, amended: checkAlerts equals the triggered sublist of the
user's active notification-enabled budgets IN STORE (registry iteration)
order, mapped to alert records — so its length is the number of triggered
active notification-enabled budgets and a notifications-disabled budget
never appears — but the output is not sorted by category (the route's
query has no sort clause). -/
theorem C2_amended (store : List Budget) (ledger : List Expense) (uid : Nat) (t o : Int) :
    checkAlerts store ledger uid t o =
      ((registryActiveEnabled store uid).filter fun b =>
        (computeUsage b (spentOf ledger uid b.category t o)).alertTriggered).map
        (fun b => mkAlert b (spentOf ledger uid b.category t o)) ∧
    (checkAlerts store ledger uid t o).length =
      ((registryActiveEnabled store uid).filter fun b =>
        (computeUsage b (spentOf ledger uid b.category t o)).alertTriggered).length ∧
    ∀ a ∈ checkAlerts store ledger uid t o, ∃ b ∈ store,
      b.user = uid ∧ b.isActive = true ∧ b.notifs.enabled = true ∧
      a = mkAlert b (spentOf ledger uid b.category t o) := by
  refine ⟨checkAlerts_eq store ledger uid t o, ?_, ?_⟩
  · rw [checkAlerts_eq]
    exact List.length_map _ _
  · intro a ha
    rw [checkAlerts_eq] at ha
    rcases List.mem_map.mp ha with ⟨b, hb, rfl⟩
    rcases List.mem_filter.mp hb with ⟨hreg, _⟩
    simp only [registryActiveEnabled] at hreg
    rcases List.mem_filter.mp hreg with ⟨hmem, hflags⟩
    simp only [Bool.and_eq_true, beq_iff_eq] at hflags
    exact ⟨b, hmem, hflags.1.1, hflags.1.2, hflags.2, rfl⟩

/-- Claim C3, counterexample: a budget of 100000 with threshold 80 and
79999 spent has raw usage 79.999 percent, whose rounded snapshot value is
80.00 — at least the threshold — yet alertTriggered is false, because the
code compares the UNROUNDED percentage. -/
theorem C3_counterexample :
    (getUsage [nearBudget] [nearExpense] 1 3 sampleNow 0).toOption.map
        (fun u => (u.usagePercentage, u.alertTriggered)) = some (JsNum.num 80, false) ∧
    nearBudget.alertThreshold ≤ (80 : ℚ) := by
  decide

/-- Claim C3, amended: for every budget found for the caller with nonzero
limitAmount, the snapshot's alertTriggered is true exactly when the
UNROUNDED percentage totalSpent / limitAmount * 100 is at least
alertThreshold (the rounded display value plays no role); a threshold of 0
still makes every snapshot triggered. -/
theorem C3_amended (store : List Budget) (ledger : List Expense) (uid bid : Nat) (t o : Int)
    (b : Budget) (hfind : findBudget store uid bid = some b) (hnz : b.amount ≠ 0) :
    ∃ u, getUsage store ledger uid bid t o = Except.ok u ∧
      (u.alertTriggered = true ↔
        b.alertThreshold ≤ spentOf ledger uid b.category t o / b.amount * 100) := by
  refine ⟨computeUsage b (spentOf ledger uid b.category t o), ?_, ?_⟩
  · unfold getUsage
    rw [hfind]
  · show jsGe (jsMul100 (jsDiv (spentOf ledger uid b.category t o) b.amount))
        b.alertThreshold = true ↔ _
    unfold jsDiv
    rw [if_neg hnz]
    show decide (b.alertThreshold ≤ spentOf ledger uid b.category t o / b.amount * 100) = true ↔ _
    exact decide_eq_true_iff

/-- Claim C3, witness for the amended theorem at a concrete input. -/
theorem C3_witness :
    ∃ u, getUsage [nearBudget] [nearExpense] 1 3 sampleNow 0 = Except.ok u ∧
      (u.alertTriggered = true ↔
        nearBudget.alertThreshold ≤
          spentOf [nearExpense] 1 nearBudget.category sampleNow 0 / nearBudget.amount * 100) :=
  C3_amended [nearBudget] [nearExpense] 1 3 sampleNow 0 nearBudget
    (by decide) (by decide)

/-- Claim C4, counterexample: a budget of 100000 with threshold 50 and
99999 spent emits an alert whose usagePercentage field is 100.00 (the
rounded value), yet its severity is warning, because the code classifies
severity from the UNROUNDED 99.999 percent. -/
theorem C4_counterexample :
    (checkAlerts [nearCriticalBudget] [nearCriticalExpense] 1 sampleNow 0).map
        (fun a => (a.usagePercentage, a.severity)) = [(JsNum.num 100, Severity.warning)] ∧
    Severity.warning ≠ Severity.critical := by
  decide

/-- Claim C4, amended: every alert emitted by checkAlerts comes from an
active, notification-enabled budget of the user whose UNROUNDED usage
percentage is at least its threshold (so no alert is emitted below the
threshold), and its severity is critical exactly when that UNROUNDED
percentage is at least 100, else warning; the alert's rounded
usagePercentage field is not what severity is computed from. -/
theorem C4_amended (store : List Budget) (ledger : List Expense) (uid : Nat) (t o : Int)
    (a : Alert) (ha : a ∈ checkAlerts store ledger uid t o) :
    ∃ b ∈ store, b.user = uid ∧ b.isActive = true ∧ b.notifs.enabled = true ∧
      jsGe (rawPct b (spentOf ledger uid b.category t o)) b.alertThreshold = true ∧
      a = mkAlert b (spentOf ledger uid b.category t o) ∧
      a.severity = (if jsGe (rawPct b (spentOf ledger uid b.category t o)) 100 = true
        then Severity.critical else Severity.warning) := by
  rw [checkAlerts_eq] at ha
  rcases List.mem_map.mp ha with ⟨b, hb, rfl⟩
  rcases List.mem_filter.mp hb with ⟨hreg, htrig⟩
  simp only [registryActiveEnabled] at hreg
  rcases List.mem_filter.mp hreg with ⟨hmem, hflags⟩
  simp only [Bool.and_eq_true, beq_iff_eq] at hflags
  exact ⟨b, hmem, hflags.1.1, hflags.1.2, hflags.2, htrig, rfl, rfl⟩

/-- Claim C4, witness for the amended theorem at a concrete input. -/
theorem C4_witness :
    ∃ b ∈ [nearCriticalBudget], b.user = 1 ∧ b.isActive = true ∧ b.notifs.enabled = true ∧
      jsGe (rawPct b (spentOf [nearCriticalExpense] 1 b.category sampleNow 0))
        b.alertThreshold = true ∧
      sampleAlert = mkAlert b (spentOf [nearCriticalExpense] 1 b.category sampleNow 0) ∧
      sampleAlert.severity =
        (if jsGe (rawPct b (spentOf [nearCriticalExpense] 1 b.category sampleNow 0)) 100 = true
          then Severity.critical else Severity.warning) :=
  C4_amended [nearCriticalBudget] [nearCriticalExpense] 1 sampleNow 0 sampleAlert
    (by decide)

/-- Claim C5: for every budget found for the caller with limitAmount > 0
and nonnegative window total, the snapshot's totalSpent is the ledger sum
over the current month window (0 when nothing matches, by definition of
the sum) and its usagePercentage is totalSpent / limitAmount * 100 rounded
to 2 decimals HALF-UP, exactly as claimed. -/
theorem C5_rounding (store : List Budget) (ledger : List Expense) (uid bid : Nat) (t o : Int)
    (b : Budget) (hfind : findBudget store uid bid = some b) (hpos : 0 < b.amount)
    (hs : 0 ≤ spentOf ledger uid b.category t o) :
    ∃ u, getUsage store ledger uid bid t o = Except.ok u ∧
      u.totalSpent = spentOf ledger uid b.category t o ∧
      u.usagePercentage =
        JsNum.num (roundHalfUp2 (spentOf ledger uid b.category t o / b.amount * 100)) := by
  refine ⟨computeUsage b (spentOf ledger uid b.category t o), ?_, rfl, ?_⟩
  · unfold getUsage
    rw [hfind]
  · show jsRound2 (jsMul100 (jsDiv (spentOf ledger uid b.category t o) b.amount)) = _
    unfold jsDiv
    rw [if_neg (ne_of_gt hpos)]
    show JsNum.num (round2 (spentOf ledger uid b.category t o / b.amount * 100)) = _
    have hq : 0 ≤ spentOf ledger uid b.category t o / b.amount * 100 :=
      mul_nonneg (div_nonneg hs (le_of_lt hpos)) (by norm_num)
    unfold round2 jsRound roundHalfUp2
    rw [if_pos hq]

/-- Claim C5, witness for the theorem at a concrete input. -/
theorem C5_witness :
    ∃ u, getUsage [nearBudget] [nearExpense] 1 3 sampleNow 0 = Except.ok u ∧
      u.totalSpent = spentOf [nearExpense] 1 nearBudget.category sampleNow 0 ∧
      u.usagePercentage =
        JsNum.num (roundHalfUp2
          (spentOf [nearExpense] 1 nearBudget.category sampleNow 0 / nearBudget.amount * 100)) :=
  C5_rounding [nearBudget] [nearExpense] 1 3 sampleNow 0 nearBudget
    (by decide) (by decide) (by decide)

/-- Claim C6: creating a budget for a (user, category) pair that already
has an active budget fails with the duplicate-budget error and leaves the
store unchanged (no new budget is created), for any well-formed request. -/
theorem C6_duplicate (store : List Budget) (uid : Nat) (r : CreateReq) (now : Int) (newId : Nat)
    (hvalid : validCreate r = true)
    (hdup : ∃ x ∈ store, x.user = uid ∧ x.category = r.category ∧ x.isActive = true) :
    createBudget store uid r now newId = (Except.error ApiError.duplicateBudget, store) := by
  unfold createBudget
  rw [if_neg (fun h => h hvalid)]
  rw [if_pos]
  rcases hdup with ⟨x, hx, h1, h2, h3⟩
  rw [List.find?_isSome]
  exact ⟨x, hx, by simp [h1, h2, h3]⟩

/-- Claim C6, witness for the theorem at a concrete input. -/
theorem C6_witness :
    createBudget pairStore 1 dupCreateReq 0 99 = (Except.error ApiError.duplicateBudget, pairStore) :=
  C6_duplicate pairStore 1 dupCreateReq 0 99 (by decide)
    ⟨transportBudget, by decide, rfl, rfl, rfl⟩

/-- Claim C7, counterexample: at 2024-01-31 23:30 UTC with a local offset
of +60 minutes, the code's month window (local February 2024) differs from
the UTC month window of the spec (UTC January 2024): the code uses the
server's local calendar, not UTC boundaries. -/
theorem C7_counterexample : monthWindow boundaryInstant 60 ≠ specMonthlyWindow boundaryInstant := by
  decide

/-- Claim C7, amended: for every reference instant the window is the
half-open first-of-month-to-first-of-next-month interval computed on the
server's LOCAL calendar: it equals the UTC window of the instant shifted
by the local offset, translated back by the offset; it coincides with UTC
boundaries only when the offset is 0. -/
theorem C7_amended (t o : Int) :
    monthWindow t o =
      ((specMonthlyWindow (t + o)).1 - o, (specMonthlyWindow (t + o)).2 - o) := rfl

/-- Claim C8, counterexample: a store satisfying the
unique-active-per-(user, category) invariant stops satisfying it after a
valid PUT that merely changes a budget's category to one that already has
an active budget: the update route performs no duplicate check. -/
theorem C8_counterexample :
    noActiveDup pairStore = true ∧
    validUpdate recatReq = true ∧
    (updateBudget pairStore 1 12 recatReq).1.toOption = some (applyUpdate foodBudget recatReq) ∧
    noActiveDup (updateBudget pairStore 1 12 recatReq).2 = false := by
  decide

/-- Claim C8, amended: budget creation and soft-deletion preserve the
unique-active-per-(user, category) invariant, but update does not (it can
re-categorize a budget into a pair that already has an active budget, as
the counterexample shows). -/
theorem C8_amended (store : List Budget) (uid : Nat) (r : CreateReq) (now : Int) (newId : Nat)
    (bid : Nat) (h : noActiveDup store = true) :
    noActiveDup (createBudget store uid r now newId).2 = true ∧
    noActiveDup (deleteBudget store uid bid).2 = true := by
  constructor
  · unfold createBudget
    by_cases hv : validCreate r = true
    · rw [if_neg (fun hh => hh hv)]
      by_cases hd : (store.find? fun b =>
          b.user == uid && decide (b.category = r.category) && b.isActive).isSome = true
      · rw [if_pos hd]
        exact h
      · rw [if_neg hd]
        show noActiveDup (store ++ [_]) = true
        rw [noActiveDup_append]
        refine ⟨h, fun x hx => ?_⟩
        have hnone : (store.find? fun b =>
            b.user == uid && decide (b.category = r.category) && b.isActive) = none := by
          cases hfo : store.find? fun b =>
              b.user == uid && decide (b.category = r.category) && b.isActive with
          | none => rfl
          | some y => rw [hfo] at hd; exact absurd rfl hd
        have hp := List.find?_eq_none.mp hnone x hx
        unfold activeClash
        cases hb1 : x.isActive <;> cases hb2 : x.user == uid <;>
          cases hb3 : decide (x.category = r.category) <;> simp_all
    · rw [if_pos (fun hh => hv hh)]
      exact h
  · unfold deleteBudget
    cases hf : findBudget store uid bid with
    | none => exact h
    | some b =>
      show noActiveDup (store.map fun x =>
        if x.id == b.id then { x with isActive := false } else x) = true
      refine noActiveDup_map _ ?_ ?_ ?_ store h
      · intro x
        by_cases hx : (x.id == b.id) = true
        · rw [if_pos hx]
        · rw [if_neg hx]
      · intro x
        by_cases hx : (x.id == b.id) = true
        · rw [if_pos hx]
        · rw [if_neg hx]
      · intro x
        by_cases hx : (x.id == b.id) = true
        · rw [if_pos hx]
          intro hh
          exact absurd hh Bool.false_ne_true
        · rw [if_neg hx]
          exact id

/-- Claim C8, witness for the amended theorem at a concrete input. -/
theorem C8_witness :
    noActiveDup (createBudget pairStore 1 dupCreateReq 0 99).2 = true ∧
    noActiveDup (deleteBudget pairStore 1 11).2 = true :=
  C8_amended pairStore 1 dupCreateReq 0 99 11 (by decide)

/-- Claim C9: deleting an existing budget owned by the caller succeeds,
keeps every record in the store (same length, entry by entry the same
document), changes no field other than isActive (which is set to false on
every entry with the deleted budget's id and left unchanged elsewhere),
and sets the target's isActive to false. -/
theorem C9_softDelete (store : List Budget) (uid bid : Nat) (b : Budget)
    (hfind : findBudget store uid bid = some b) :
    (deleteBudget store uid bid).1 = Except.ok () ∧
    (deleteBudget store uid bid).2 =
      store.map (fun x => if x.id == b.id then { x with isActive := false } else x) ∧
    (deleteBudget store uid bid).2.length = store.length ∧
    (∀ p ∈ ((deleteBudget store uid bid).2).zip store,
      p.1.id = p.2.id ∧ p.1.user = p.2.user ∧ p.1.category = p.2.category ∧
      p.1.amount = p.2.amount ∧ p.1.period = p.2.period ∧ p.1.startDate = p.2.startDate ∧
      p.1.endDate = p.2.endDate ∧ p.1.alertThreshold = p.2.alertThreshold ∧
      p.1.notifs = p.2.notifs) ∧
    (∀ x ∈ (deleteBudget store uid bid).2, x.id = b.id → x.isActive = false) := by
  have h2 : (deleteBudget store uid bid).2 =
      store.map (fun x => if x.id == b.id then { x with isActive := false } else x) := by
    unfold deleteBudget
    rw [hfind]
  have h1 : (deleteBudget store uid bid).1 = Except.ok () := by
    unfold deleteBudget
    rw [hfind]
  refine ⟨h1, h2, ?_, ?_, ?_⟩
  · rw [h2]
    exact List.length_map _ _
  · intro p hp
    rw [h2, zip_map_self] at hp
    rcases List.mem_map.mp hp with ⟨x, _, rfl⟩
    by_cases hx : (x.id == b.id) = true
    · rw [if_pos hx]
      exact ⟨rfl, rfl, rfl, rfl, rfl, rfl, rfl, rfl, rfl⟩
    · rw [if_neg hx]
      exact ⟨rfl, rfl, rfl, rfl, rfl, rfl, rfl, rfl, rfl⟩
  · intro x hx hid
    rw [h2] at hx
    rcases List.mem_map.mp hx with ⟨y, _, rfl⟩
    by_cases hy : (y.id == b.id) = true
    · rw [if_pos hy]
    · rw [if_neg hy] at hid ⊢
      exact absurd (beq_iff_eq.mpr hid) hy

/-- Claim C9, witness for the theorem at a concrete input. -/
theorem C9_witness :
    (deleteBudget pairStore 1 11).1 = Except.ok () ∧
    ∀ x ∈ (deleteBudget pairStore 1 11).2, x.id = transportBudget.id → x.isActive = false :=
  ⟨(C9_softDelete pairStore 1 11 transportBudget (by decide)).1,
   (C9_softDelete pairStore 1 11 transportBudget (by decide)).2.2.2.2⟩

/-- Claim C10: getUsage does not require the budget to be active — when
the owned budget found for the id is inactive it still returns a computed
snapshot — and it returns the not-found error exactly when no budget in
the store has the requested id and owner. -/
theorem C10_inactive (store : List Budget) (ledger : List Expense) (uid bid : Nat) (t o : Int) :
    (∀ b, findBudget store uid bid = some b → b.isActive = false →
      ∃ u, getUsage store ledger uid bid t o = Except.ok u) ∧
    (getUsage store ledger uid bid t o = Except.error ApiError.notFound ↔
      ∀ x ∈ store, ¬(x.id = bid ∧ x.user = uid)) := by
  constructor
  · intro b hb _
    refine ⟨computeUsage b (spentOf ledger uid b.category t o), ?_⟩
    unfold getUsage
    rw [hb]
  · unfold getUsage
    cases hf : findBudget store uid bid with
    | none =>
      simp only []
      constructor
      · intro _ x hx
        have hp := List.find?_eq_none.mp hf x hx
        rintro ⟨h1, h2⟩
        exact hp (by simp [h1, h2])
      · intro _
        trivial
    | some b =>
      constructor
      · intro h
        exact absurd h (by simp)
      · intro hall
        have hmem := List.mem_of_find?_eq_some hf
        have hpred := List.find?_some hf
        simp only [Bool.and_eq_true, beq_iff_eq] at hpred
        exact absurd ⟨hpred.1, hpred.2⟩ (hall b hmem)

/-- Claim C10, witness for the theorem at a concrete input: an inactive
owned budget still yields a snapshot, and a missing id yields the
not-found characterization. -/
theorem C10_witness :
    (∃ u, getUsage [inactiveBudget] [] 1 21 sampleNow 0 = Except.ok u) ∧
    (getUsage [inactiveBudget] [] 1 99 sampleNow 0 = Except.error ApiError.notFound ↔
      ∀ x ∈ [inactiveBudget], ¬(x.id = 99 ∧ x.user = 1)) :=
  ⟨(C10_inactive [inactiveBudget] [] 1 21 sampleNow 0).1 inactiveBudget (by decide) rfl,
   (C10_inactive [inactiveBudget] [] 1 99 sampleNow 0).2⟩

end BudgetBuddy
